import Mathlib

set_option maxRecDepth 4000

/-!
Verification of the Choi 2011 non-wear-time detector
(`choi_2011_calculate_non_wear_time` in
`algorithms/non_wear_time/choi_2011.py`).

The Python function performs a single forward pass over a per-epoch
activity-count sequence, maintaining a small cluster of boolean flags and
counters, collects candidate non-wear intervals in `ranges`, and finally
materialises a binary mask (1 = worn, 0 = non-wear) by zeroing each recorded
half-open range.  We embed the scalar-data path (the multi-axis reduction
`data[:,0]` / vector magnitude is performed before the scan and is out of
scope of the claims): `data` below is the scalar count sequence the scan
actually reads.  Counts are modelled as integers; Python list/numpy slicing
(including its clipping and negative-index behaviour) is modelled by
`pySlice`.  The diagnostic-printing loop at the end indexes into `time`,
which can raise an `IndexError` in Python; the embedding returns
`Except String _` to capture that control flow faithfully.
-/

/-- Configuration parameters of `choi_2011_calculate_non_wear_time`
(field names follow the Python keyword arguments).  Note the scan body of
the Python function never reads `activity_threshold`; we keep the field to
model the signature faithfully. -/
structure ChoiConfig where
  activity_threshold : Int
  min_period_len : Nat
  spike_tolerance : Nat
  min_window_len : Nat
deriving DecidableEq

/-- The mutable loop state of the Python scan (`reset`, `stopped`, `start`,
`window_2_invalid`, `strt_nw`, `end_nw`, `cnt_non_zero`, `ranges`). -/
structure ChoiState where
  reset : Bool
  stopped : Bool
  start : Bool
  window_2_invalid : Bool
  strt_nw : Nat
  end_nw : Nat
  cnt_non_zero : Nat
  ranges : List (Nat × Nat)
deriving DecidableEq

/-- Initial loop state (all flags false, counters zero, no ranges). -/
def choiInit : ChoiState :=
  { reset := false, stopped := false, start := false, window_2_invalid := false,
    strt_nw := 0, end_nw := 0, cnt_non_zero := 0, ranges := [] }

/-- Python slice `l[a:b]` (step 1) for integer bounds: negative bounds count
from the end, then both bounds are clipped to `[0, len l]`. -/
def pySlice (l : List Int) (a b : Int) : List Int :=
  let n : Int := l.length
  let a0 : Nat := (if a < 0 then n + a else a).toNat
  let b0 : Nat := (if b < 0 then n + b else b).toNat
  (l.drop a0).take (b0 - a0)

/-- The value `len(data - 1)` from the Python close condition: `data - 1` is
the elementwise numpy subtraction, so this is the length of the elementwise
shifted sequence. -/
def lenDataMinusOne (data : List Int) : Nat :=
  (data.map (fun x => x - 1)).length

/-- `data[paxn]`; the loop only evaluates it for in-range `paxn`. -/
def dataVal (data : List Int) (i : Nat) : Int :=
  data.getD i 0

/-- `(arr > 0).sum()` of numpy: the number of strictly positive entries. -/
def numPos (l : List Int) : Nat :=
  l.countP (fun x => decide (0 < x))

/-- The upstream window `data[paxn + spike_tolerance : paxn + min_window_len + 1]`. -/
def upstreamWindow (cfg : ChoiConfig) (data : List Int) (i : Nat) : List Int :=
  pySlice data (i + cfg.spike_tolerance : Nat) (i + cfg.min_window_len + 1 : Nat)

/-- The downstream window
`data[paxn - min_window_len if paxn - min_window_len > 0 else 0 : paxn - 1]`
(the bound arithmetic is over integers, as in Python). -/
def downstreamWindow (cfg : ChoiConfig) (data : List Int) (i : Nat) : List Int :=
  pySlice data (if 0 < (i : Int) - cfg.min_window_len then (i : Int) - cfg.min_window_len else 0)
    ((i : Int) - 1)

/-- Combined failure of the two window checks at epoch `i`: some entry of the
upstream or downstream window is strictly positive. -/
def windowCheckFails (cfg : ChoiConfig) (data : List Int) (i : Nat) : Bool :=
  decide (0 < numPos (upstreamWindow cfg data i)) ||
    decide (0 < numPos (downstreamWindow cfg data i))

/-- The close condition of the scan:
`cnt_non_zero == 3 or window_2_invalid or paxn == len(data - 1)`. -/
def closeTrigger (data : List Int) (cnt : Nat) (invalid : Bool) (i : Nat) : Bool :=
  cnt == 3 || invalid || i == lenDataMinusOne data

/-- Reset block at the top of the loop body: clear the per-candidate state
when `reset or stopped`. -/
def clearPhase (s : ChoiState) : ChoiState :=
  if s.reset || s.stopped then
    { s with strt_nw := 0, end_nw := 0, start := false, reset := false,
             stopped := false, window_2_invalid := false, cnt_non_zero := 0 }
  else s

/-- Candidate opening: `if paxinten == 0 and start == False`. -/
def openPhase (i : Nat) (p : Int) (s : ChoiState) : ChoiState :=
  if p == 0 && s.start == false then { s with strt_nw := i, start := true } else s

/-- Spike counting: `if paxinten > 0: cnt_non_zero += 1`. -/
def bumpPhase (p : Int) (s : ChoiState) : ChoiState :=
  if 0 < p then { s with cnt_non_zero := s.cnt_non_zero + 1 } else s

/-- Window validation block: on a spike, check the upstream window, then the
downstream window, setting `window_2_invalid` on a positive entry; if the
flag is set, schedule a reset. -/
def windowPhase (cfg : ChoiConfig) (data : List Int) (i : Nat) (p : Int)
    (s : ChoiState) : ChoiState :=
  if 0 < p then
    let s1 := if 0 < numPos (upstreamWindow cfg data i) then
      { s with window_2_invalid := true } else s
    let s2 := if 0 < numPos (downstreamWindow cfg data i) then
      { s1 with window_2_invalid := true } else s1
    if s2.window_2_invalid then { s2 with reset := true } else s2
  else s

/-- Spike-run reset: `if paxinten == 0: cnt_non_zero = 0`. -/
def zeroPhase (p : Int) (s : ChoiState) : ChoiState :=
  if p == 0 then { s with cnt_non_zero := 0 } else s

/-- Close block: when the close condition fires, set `end_nw`, then either
schedule a reset (candidate too short) or mark the sequence `stopped`. -/
def closePhase (cfg : ChoiConfig) (data : List Int) (i : Nat) (s : ChoiState) : ChoiState :=
  if closeTrigger data s.cnt_non_zero s.window_2_invalid i then
    let s1 := { s with end_nw := i }
    if (pySlice data s1.strt_nw s1.end_nw).length < cfg.min_period_len then
      { s1 with reset := true }
    else
      { s1 with stopped := true }
  else s

/-- Recording block: `if stopped: ranges.append([strt_nw, end_nw])`. -/
def appendPhase (s : ChoiState) : ChoiState :=
  if s.stopped then { s with ranges := s.ranges ++ [(s.strt_nw, s.end_nw)] } else s

/-- One iteration of the Python loop body at index `i`. -/
def choiStep (cfg : ChoiConfig) (data : List Int) (i : Nat) (s0 : ChoiState) : ChoiState :=
  let p := dataVal data i
  let s := openPhase i p (clearPhase s0)
  if s.start then
    appendPhase (closePhase cfg data i (zeroPhase p (windowPhase cfg data i p (bumpPhase p s))))
  else s

/-- State after the first `n` iterations of the loop. -/
def choiScanUpto (cfg : ChoiConfig) (data : List Int) (n : Nat) : ChoiState :=
  (List.range n).foldl (fun s i => choiStep cfg data i s) choiInit

/-- State after the whole loop `for paxn in range(0, len(data))`. -/
def choiScan (cfg : ChoiConfig) (data : List Int) : ChoiState :=
  choiScanUpto cfg data data.length

/-- The recorded `ranges` list after the scan. -/
def choiRanges (cfg : ChoiConfig) (data : List Int) : List (Nat × Nat) :=
  (choiScan cfg data).ranges

/-- numpy slice assignment `v[a:b] = 0` on the mask vector. -/
def setZeroRange (v : List Int) (a b : Nat) : List Int :=
  ((List.range v.length).zip v).map (fun jx => if a ≤ jx.1 ∧ jx.1 < b then 0 else jx.2)

/-- The final mask: an all-ones vector of length `len(data)` with every
recorded range zeroed. -/
def choiMask (cfg : ChoiConfig) (data : List Int) : List Int :=
  (choiRanges cfg data).foldl (fun v r => setZeroRange v r.1 r.2)
    (List.replicate data.length 1)

/-- One iteration of the Python output loop over `ranges`.  When
`print_output` is set, the diagnostic logging evaluates `time[row[0]]` and
`time[row[1]]`, which raises an `IndexError` when out of range; afterwards the
mask slice is zeroed. -/
def logStep (time : List Int) (print_output : Bool)
    (acc : Except String (List Int)) (r : Nat × Nat) : Except String (List Int) :=
  match acc with
  | .error e => .error e
  | .ok v =>
    if print_output then
      if r.1 < time.length then
        if r.2 < time.length then .ok (setZeroRange v r.1 r.2)
        else .error "IndexError"
      else .error "IndexError"
    else .ok (setZeroRange v r.1 r.2)

/-- The whole function `choi_2011_calculate_non_wear_time` on the scalar data
path: run the scan, then materialise the mask over the recorded ranges,
performing the diagnostic `time` lookups when `print_output` is set.
Returns the mask, or the Python `IndexError` raised by the logging. -/
def choi_2011_calculate_non_wear_time (cfg : ChoiConfig) (data time : List Int)
    (print_output : Bool) : Except String (List Int) :=
  (choiRanges cfg data).foldl (logStep time print_output)
    (.ok (List.replicate data.length 1))

/-- Default configuration of the Python keyword arguments. -/
def cfgDefault : ChoiConfig :=
  { activity_threshold := 0, min_period_len := 90, spike_tolerance := 2, min_window_len := 30 }

/-- The expected contents of a window slice, spelled as the list of data
values at the indices `[a, b)` clipped to the sequence: used to state what
the window checks examine. -/
def expectedWindow (l : List Int) (a b : Nat) : List Int :=
  (List.range' a (min b l.length - a)).map (fun j => l.getD j 0)

/-- The 201-epoch tolerated-spike example from the specification:
100 zeros, one count of 50, 100 zeros. -/
def dataSpike201 : List Int :=
  List.replicate 100 0 ++ ([50] ++ List.replicate 100 0)

/-- A 94-epoch input: 90 zeros, a spike, two zeros, and a second spike that
invalidates the first spike's upstream window. -/
def dataWin94 : List Int :=
  List.replicate 90 0 ++ [5, 0, 0, 5]

/-- Configuration equal to the defaults except `activity_threshold = 1`. -/
def cfgThresh1 : ChoiConfig :=
  { activity_threshold := 1, min_period_len := 90, spike_tolerance := 2, min_window_len := 30 }

/-! ## Basic lemmas about the embedded primitives -/

theorem lenDataMinusOne_eq (data : List Int) : lenDataMinusOne data = data.length := by
  simp [lenDataMinusOne]

theorem pySlice_natCast (l : List Int) (a b : Nat) :
    pySlice l a b = (l.drop a).take (b - a) := by
  unfold pySlice
  have ha : ¬ ((a : Int) < 0) := by exact_mod_cast Int.not_lt.mpr (Int.natCast_nonneg a)
  have hb : ¬ ((b : Int) < 0) := by exact_mod_cast Int.not_lt.mpr (Int.natCast_nonneg b)
  simp only [ha, if_false, hb, Int.toNat_natCast]

theorem pySlice_length (l : List Int) (a b : Nat) :
    (pySlice l a b).length = min b l.length - a := by
  rw [pySlice_natCast]
  simp [List.length_take, List.length_drop]
  omega

theorem pySlice_length_le (l : List Int) (a b : Nat) :
    (pySlice l a b).length ≤ l.length := by
  rw [pySlice_length]; omega

theorem pySlice_eq_expectedWindow (l : List Int) (a b : Nat) :
    pySlice l a b = expectedWindow l a b := by
  rw [pySlice_natCast]
  apply List.ext_getElem?
  intro j
  rcases Nat.lt_or_ge j (min b l.length - a) with hj | hj
  · have hjl : a + j < l.length := by omega
    have hjb : j < b - a := by omega
    rw [List.getElem?_take, if_pos hjb, List.getElem?_drop]
    unfold expectedWindow
    rw [List.getElem?_map, List.getElem?_range' a 1 hj]
    simp only [Nat.one_mul, Option.map_some']
    rw [List.getElem?_eq_getElem hjl]
    simp [List.getD_eq_getElem?_getD, List.getElem?_eq_getElem hjl]
  · have hnone : ((l.drop a).take (b - a))[j]? = none := by
      apply List.getElem?_eq_none
      simp only [List.length_take, List.length_drop]
      omega
    have hnone2 : (expectedWindow l a b)[j]? = none := by
      apply List.getElem?_eq_none
      simp only [expectedWindow, List.length_map, List.length_range']
      omega
    rw [hnone, hnone2]

theorem choiScanUpto_succ (cfg : ChoiConfig) (data : List Int) (n : Nat) :
    choiScanUpto cfg data (n + 1) = choiStep cfg data n (choiScanUpto cfg data n) := by
  unfold choiScanUpto
  rw [List.range_succ, List.foldl_append, List.foldl_cons, List.foldl_nil]

theorem numPos_pos_iff (l : List Int) : 0 < numPos l ↔ ∃ x ∈ l, 0 < x := by
  unfold numPos
  rw [List.countP_pos_iff]
  simp

/-! ## Per-case characterisation of one loop iteration -/

theorem clearPhase_live {s : ChoiState} (hr : s.reset = false) (hs : s.stopped = false) :
    clearPhase s = s := by
  simp [clearPhase, hr, hs]

theorem clearPhase_reset (s : ChoiState) : (clearPhase s).reset = false := by
  unfold clearPhase
  split
  · rfl
  · rename_i h
    simp only [Bool.or_eq_true, not_or] at h
    exact Bool.eq_false_iff.mpr h.1

theorem clearPhase_stopped (s : ChoiState) : (clearPhase s).stopped = false := by
  unfold clearPhase
  split
  · rfl
  · rename_i h
    simp only [Bool.or_eq_true, not_or] at h
    exact Bool.eq_false_iff.mpr h.2

theorem clearPhase_idem (s : ChoiState) : clearPhase (clearPhase s) = clearPhase s := by
  apply clearPhase_live (clearPhase_reset s) (clearPhase_stopped s)

theorem choiStep_eq_clear (cfg : ChoiConfig) (data : List Int) (i : Nat) (s : ChoiState) :
    choiStep cfg data i s = choiStep cfg data i (clearPhase s) := by
  unfold choiStep
  rw [clearPhase_idem]

theorem choiStep_idle_pos {cfg : ChoiConfig} {data : List Int} {i : Nat} {s : ChoiState}
    (hr : s.reset = false) (hs : s.stopped = false) (hst : s.start = false)
    (hp : dataVal data i ≠ 0) : choiStep cfg data i s = s := by
  simp [choiStep, clearPhase, openPhase, hr, hs, hst, hp]

theorem choiStep_open {cfg : ChoiConfig} {data : List Int} {i : Nat} {s : ChoiState}
    (hr : s.reset = false) (hs : s.stopped = false) (hst : s.start = false)
    (hw : s.window_2_invalid = false) (hp : dataVal data i = 0) (hin : i ≠ data.length) :
    choiStep cfg data i s = { s with strt_nw := i, start := true, cnt_non_zero := 0 } := by
  simp [choiStep, clearPhase, openPhase, bumpPhase, windowPhase, zeroPhase, closePhase,
    appendPhase, closeTrigger, lenDataMinusOne_eq, hr, hs, hst, hw, hp, hin]

theorem choiStep_zero_in {cfg : ChoiConfig} {data : List Int} {i : Nat} {s : ChoiState}
    (hr : s.reset = false) (hs : s.stopped = false) (hst : s.start = true)
    (hw : s.window_2_invalid = false) (hp : dataVal data i = 0) (hin : i ≠ data.length) :
    choiStep cfg data i s = { s with cnt_non_zero := 0 } := by
  simp [choiStep, clearPhase, openPhase, bumpPhase, windowPhase, zeroPhase, closePhase,
    appendPhase, closeTrigger, lenDataMinusOne_eq, hr, hs, hst, hw, hp, hin]

theorem choiStep_neg_in {cfg : ChoiConfig} {data : List Int} {i : Nat} {s : ChoiState}
    (hr : s.reset = false) (hs : s.stopped = false) (hst : s.start = true)
    (hw : s.window_2_invalid = false) (hp1 : dataVal data i ≠ 0)
    (hp2 : ¬ 0 < dataVal data i) (hc : s.cnt_non_zero ≠ 3) (hin : i ≠ data.length) :
    choiStep cfg data i s = s := by
  simp [choiStep, clearPhase, openPhase, bumpPhase, windowPhase, zeroPhase, closePhase,
    appendPhase, closeTrigger, lenDataMinusOne_eq, hr, hs, hst, hw, hp1, hp2, hc, hin]

theorem windowPhase_pos {cfg : ChoiConfig} {data : List Int} {i : Nat} {p : Int} {s : ChoiState}
    (hp : 0 < p) (hw : s.window_2_invalid = false) (hr : s.reset = false) :
    windowPhase cfg data i p s =
      { s with window_2_invalid := windowCheckFails cfg data i,
               reset := windowCheckFails cfg data i } := by
  obtain ⟨re, st, sa, wi, sn, en, cn, ra⟩ := s
  by_cases h1 : 0 < numPos (upstreamWindow cfg data i) <;>
    by_cases h2 : 0 < numPos (downstreamWindow cfg data i) <;>
      simp_all [windowPhase, windowCheckFails]

theorem choiStep_spike_quiet {cfg : ChoiConfig} {data : List Int} {i : Nat} {s : ChoiState}
    (hr : s.reset = false) (hs : s.stopped = false) (hst : s.start = true)
    (hw : s.window_2_invalid = false) (hp : 0 < dataVal data i)
    (hf : windowCheckFails cfg data i = false) (hc : s.cnt_non_zero + 1 ≠ 3)
    (hin : i ≠ data.length) :
    choiStep cfg data i s = { s with cnt_non_zero := s.cnt_non_zero + 1 } := by
  have hp0 : dataVal data i ≠ 0 := by omega
  obtain ⟨re, st, sa, wi, sn, en, cn, ra⟩ := s
  by_cases h1 : 0 < numPos (upstreamWindow cfg data i) <;>
    by_cases h2 : 0 < numPos (downstreamWindow cfg data i) <;>
      simp_all [choiStep, clearPhase, openPhase, bumpPhase, windowPhase, zeroPhase,
        closePhase, appendPhase, closeTrigger, windowCheckFails, lenDataMinusOne_eq]

theorem choiStep_spike_close_short {cfg : ChoiConfig} {data : List Int} {i : Nat}
    {s : ChoiState} (hr : s.reset = false) (hs : s.stopped = false) (hst : s.start = true)
    (hw : s.window_2_invalid = false) (hp : 0 < dataVal data i)
    (htrig : s.cnt_non_zero + 1 = 3 ∨ windowCheckFails cfg data i = true)
    (hshort : (pySlice data s.strt_nw i).length < cfg.min_period_len) :
    choiStep cfg data i s =
      { s with cnt_non_zero := s.cnt_non_zero + 1,
               window_2_invalid := windowCheckFails cfg data i,
               reset := true, end_nw := i } := by
  have hp0 : dataVal data i ≠ 0 := by omega
  obtain ⟨re, st, sa, wi, sn, en, cn, ra⟩ := s
  rcases htrig with htrig | htrig <;>
    by_cases h1 : 0 < numPos (upstreamWindow cfg data i) <;>
      by_cases h2 : 0 < numPos (downstreamWindow cfg data i) <;>
        simp_all [choiStep, clearPhase, openPhase, bumpPhase, windowPhase, zeroPhase,
          closePhase, appendPhase, closeTrigger, windowCheckFails, lenDataMinusOne_eq]

theorem choiStep_spike_close_long {cfg : ChoiConfig} {data : List Int} {i : Nat}
    {s : ChoiState} (hr : s.reset = false) (hs : s.stopped = false) (hst : s.start = true)
    (hw : s.window_2_invalid = false) (hp : 0 < dataVal data i)
    (htrig : s.cnt_non_zero + 1 = 3 ∨ windowCheckFails cfg data i = true)
    (hlong : ¬ (pySlice data s.strt_nw i).length < cfg.min_period_len) :
    choiStep cfg data i s =
      { s with cnt_non_zero := s.cnt_non_zero + 1,
               window_2_invalid := windowCheckFails cfg data i,
               reset := windowCheckFails cfg data i, end_nw := i, stopped := true,
               ranges := s.ranges ++ [(s.strt_nw, i)] } := by
  have hp0 : dataVal data i ≠ 0 := by omega
  obtain ⟨re, st, sa, wi, sn, en, cn, ra⟩ := s
  rcases htrig with htrig | htrig <;>
    by_cases h1 : 0 < numPos (upstreamWindow cfg data i) <;>
      by_cases h2 : 0 < numPos (downstreamWindow cfg data i) <;>
        simp_all [choiStep, clearPhase, openPhase, bumpPhase, windowPhase, zeroPhase,
          closePhase, appendPhase, closeTrigger, windowCheckFails, lenDataMinusOne_eq,
          if_neg hlong]

/-! ## The scan invariant -/

/-- Shape of every recorded range before loop index `i`: nonempty, at least
`min_period_len` long, ending before `i`. -/
def RangeBounded (cfg : ChoiConfig) (i : Nat) (r : Nat × Nat) : Prop :=
  r.1 < r.2 ∧ cfg.min_period_len ≤ r.2 - r.1 ∧ r.2 < i

/-- Invariant of the scan state before processing loop index `i`. -/
def ChoiInv (cfg : ChoiConfig) (data : List Int) (i : Nat) (s : ChoiState) : Prop :=
  s.ranges.Pairwise (fun r1 r2 => r1.2 ≤ r2.1) ∧
  (∀ r ∈ s.ranges, RangeBounded cfg i r) ∧
  (s.window_2_invalid = true → s.reset = true ∨ s.stopped = true) ∧
  (s.start = true → s.reset = false → s.stopped = false →
    s.strt_nw < i ∧ dataVal data s.strt_nw = 0 ∧ (∀ r ∈ s.ranges, r.2 ≤ s.strt_nw) ∧
    s.window_2_invalid = false ∧ s.cnt_non_zero ≤ 2)

theorem choiInv_clearPhase {cfg : ChoiConfig} {data : List Int} {i : Nat} {s : ChoiState}
    (h : ChoiInv cfg data i s) : ChoiInv cfg data i (clearPhase s) := by
  obtain ⟨h1, h2, h3, h4⟩ := h
  unfold clearPhase
  split
  · exact ⟨h1, h2, by simp, by simp⟩
  · exact ⟨h1, h2, h3, h4⟩

theorem choiInv_step {cfg : ChoiConfig} {data : List Int} {i : Nat} {s : ChoiState}
    (hi : i < data.length) (h : ChoiInv cfg data i s) :
    ChoiInv cfg data (i + 1) (choiStep cfg data i s) := by
  rw [choiStep_eq_clear]
  have h' := choiInv_clearPhase h
  have htr : (clearPhase s).reset = false := clearPhase_reset s
  have hts : (clearPhase s).stopped = false := clearPhase_stopped s
  set t := clearPhase s with ht
  clear_value t
  clear h ht
  obtain ⟨h1, h2, h3, h4⟩ := h'
  have hin : i ≠ data.length := by omega
  have hmono : ∀ r ∈ t.ranges, RangeBounded cfg (i + 1) r := by
    intro r hr
    obtain ⟨a, b, c⟩ := h2 r hr
    exact ⟨a, b, by omega⟩
  by_cases hst : t.start = true
  · obtain ⟨hstrt, hdz, hrle, hw, hcnt⟩ := h4 hst htr hts
    rcases lt_trichotomy (dataVal data i) 0 with hp | hp | hp
    · rw [choiStep_neg_in htr hts hst hw (by omega) (by omega) (by omega) hin]
      refine ⟨h1, hmono, h3, ?_⟩
      intro _ _ _
      exact ⟨by omega, hdz, hrle, hw, hcnt⟩
    · rw [choiStep_zero_in htr hts hst hw hp hin]
      unfold ChoiInv
      simp only [hw, hst, htr, hts]
      refine ⟨h1, hmono, by simp, ?_⟩
      intro _ _ _
      exact ⟨by omega, hdz, hrle, trivial, by omega⟩
    · by_cases hcl : t.cnt_non_zero + 1 = 3 ∨ windowCheckFails cfg data i = true
      · by_cases hshort : (pySlice data t.strt_nw i).length < cfg.min_period_len
        · rw [choiStep_spike_close_short htr hts hst hw hp hcl hshort]
          unfold ChoiInv
          simp only []
          refine ⟨h1, hmono, by simp, ?_⟩
          intro _ hcontra _
          simp at hcontra
        · rw [choiStep_spike_close_long htr hts hst hw hp hcl hshort]
          have hlen : (pySlice data t.strt_nw i).length = i - t.strt_nw := by
            rw [pySlice_length]; omega
          have hnew : RangeBounded cfg (i + 1) (t.strt_nw, i) :=
            ⟨hstrt, by omega, by omega⟩
          unfold ChoiInv
          simp only []
          refine ⟨?_, ?_, by simp, ?_⟩
          · rw [List.pairwise_append]
            refine ⟨h1, List.pairwise_singleton _ _, ?_⟩
            intro a ha b hb
            simp only [List.mem_singleton] at hb
            subst hb
            exact hrle a ha
          · intro r hr
            simp only [List.mem_append, List.mem_singleton] at hr
            rcases hr with hr | hr
            · exact hmono r hr
            · subst hr; exact hnew
          · intro _ _ hcontra
            simp at hcontra
      · push_neg at hcl
        obtain ⟨hc3, hcf⟩ := hcl
        have hcf' : windowCheckFails cfg data i = false := by
          rcases Bool.eq_false_or_eq_true (windowCheckFails cfg data i) with hv | hv
          · exact absurd hv hcf
          · exact hv
        rw [choiStep_spike_quiet htr hts hst hw hp hcf' hc3 hin]
        unfold ChoiInv
        simp only [hw, hst, htr, hts]
        refine ⟨h1, hmono, by simp, ?_⟩
        intro _ _ _
        exact ⟨by omega, hdz, hrle, trivial, by omega⟩
  · have hst' : t.start = false := by
      rcases Bool.eq_false_or_eq_true t.start with hv | hv
      · exact absurd hv hst
      · exact hv
    have hw : t.window_2_invalid = false := by
      rcases Bool.eq_false_or_eq_true t.window_2_invalid with hv | hv
      · rcases h3 hv with hc | hc
        · rw [htr] at hc; exact absurd hc (by simp)
        · rw [hts] at hc; exact absurd hc (by simp)
      · exact hv
    by_cases hp : dataVal data i = 0
    · rw [choiStep_open htr hts hst' hw hp hin]
      unfold ChoiInv
      simp only [hw, htr, hts]
      refine ⟨h1, hmono, by simp, ?_⟩
      intro _ _ _
      refine ⟨by omega, hp, ?_, trivial, by omega⟩
      intro r hr
      obtain ⟨_, _, hb⟩ := h2 r hr
      omega
    · rw [choiStep_idle_pos htr hts hst' hp]
      refine ⟨h1, hmono, h3, ?_⟩
      intro hc
      exact absurd hc (by simp [hst'])

theorem choiInv_scanUpto (cfg : ChoiConfig) (data : List Int) :
    ∀ n, n ≤ data.length → ChoiInv cfg data n (choiScanUpto cfg data n) := by
  intro n
  induction n with
  | zero =>
    intro _
    refine ⟨by simp [choiScanUpto, choiInit], by simp [choiScanUpto, choiInit], ?_, ?_⟩
    · simp [choiScanUpto, choiInit]
    · simp [choiScanUpto, choiInit]
  | succ m ih =>
    intro hm
    rw [choiScanUpto_succ]
    exact choiInv_step (by omega) (ih (by omega))

theorem choiInv_scan (cfg : ChoiConfig) (data : List Int) :
    ChoiInv cfg data data.length (choiScan cfg data) :=
  choiInv_scanUpto cfg data data.length (Nat.le_refl _)

theorem choiRanges_bounded (cfg : ChoiConfig) (data : List Int) :
    ∀ r ∈ choiRanges cfg data, r.1 < r.2 ∧ cfg.min_period_len ≤ r.2 - r.1 ∧
      r.2 < data.length := by
  intro r hr
  exact (choiInv_scan cfg data).2.1 r hr

theorem choiRanges_pairwise (cfg : ChoiConfig) (data : List Int) :
    (choiRanges cfg data).Pairwise (fun r1 r2 => r1.2 ≤ r2.1) :=
  (choiInv_scan cfg data).1

/-! ## Window lemmas -/

theorem pySlice_mem {l : List Int} {a b : Int} {x : Int} (hx : x ∈ pySlice l a b) :
    x ∈ l := by
  unfold pySlice at hx
  exact List.drop_subset _ _ (List.take_subset _ _ hx)

theorem downstreamWindow_eq (cfg : ChoiConfig) (data : List Int) {i : Nat} (hi : 1 ≤ i) :
    downstreamWindow cfg data i =
      pySlice data ((i - cfg.min_window_len : Nat) : Int) ((i - 1 : Nat) : Int) := by
  unfold downstreamWindow
  congr 1
  · by_cases h : 0 < (i : Int) - cfg.min_window_len
    · rw [if_pos h]; omega
    · rw [if_neg h]; omega
  · omega

theorem windowCheckFails_iff (cfg : ChoiConfig) (data : List Int) (i : Nat) :
    windowCheckFails cfg data i = true ↔
      (∃ x ∈ upstreamWindow cfg data i, 0 < x) ∨
      (∃ x ∈ downstreamWindow cfg data i, 0 < x) := by
  unfold windowCheckFails
  rw [Bool.or_eq_true, decide_eq_true_iff, decide_eq_true_iff,
    numPos_pos_iff, numPos_pos_iff]

/-! ## Mask materialisation lemmas -/

theorem length_setZeroRange (v : List Int) (a b : Nat) :
    (setZeroRange v a b).length = v.length := by
  simp [setZeroRange]

theorem length_foldl_setZero (rs : List (Nat × Nat)) (v : List Int) :
    (rs.foldl (fun w r => setZeroRange w r.1 r.2) v).length = v.length := by
  induction rs generalizing v with
  | nil => rfl
  | cons r rs ih => rw [List.foldl_cons, ih, length_setZeroRange]

theorem choiMask_length (cfg : ChoiConfig) (data : List Int) :
    (choiMask cfg data).length = data.length := by
  unfold choiMask
  rw [length_foldl_setZero, List.length_replicate]

theorem foldl_logStep_false (time : List Int) (rs : List (Nat × Nat)) (v : List Int) :
    rs.foldl (logStep time false) (.ok v) =
      .ok (rs.foldl (fun w r => setZeroRange w r.1 r.2) v) := by
  induction rs generalizing v with
  | nil => rfl
  | cons r rs ih => rw [List.foldl_cons, List.foldl_cons]; exact ih _

theorem foldl_logStep_inbounds (time : List Int) (p : Bool) (rs : List (Nat × Nat))
    (v : List Int) (h : ∀ r ∈ rs, r.1 < time.length ∧ r.2 < time.length) :
    rs.foldl (logStep time p) (.ok v) =
      .ok (rs.foldl (fun w r => setZeroRange w r.1 r.2) v) := by
  induction rs generalizing v with
  | nil => rfl
  | cons r rs ih =>
    have hr := h r (by simp)
    rw [List.foldl_cons, List.foldl_cons]
    have hstep : logStep time p (.ok v) r = .ok (setZeroRange v r.1 r.2) := by
      unfold logStep
      cases p with
      | false => rfl
      | true => simp [hr.1, hr.2]
    rw [hstep]
    exact ih _ (fun x hx => h x (by simp [hx]))

theorem choiResult_ok (cfg : ChoiConfig) (data time : List Int) (p : Bool)
    (h : p = false ∨ data.length ≤ time.length) :
    choi_2011_calculate_non_wear_time cfg data time p = .ok (choiMask cfg data) := by
  unfold choi_2011_calculate_non_wear_time choiMask
  rcases h with h | h
  · subst h
    exact foldl_logStep_false time _ _
  · apply foldl_logStep_inbounds
    intro r hr
    have hb := choiRanges_bounded cfg data r hr
    omega

/-! ## Concrete scan computations (chunked, to keep reductions shallow) -/

theorem choiScanUpto_chunk (cfg : ChoiConfig) (data : List Int) :
    ∀ c m, choiScanUpto cfg data (m + c) =
      (List.range' m c).foldl (fun t i => choiStep cfg data i t)
        (choiScanUpto cfg data m) := by
  intro c
  induction c with
  | zero => intro m; simp
  | succ k ih =>
    intro m
    rw [show m + (k + 1) = (m + k) + 1 by omega, choiScanUpto_succ, ih m,
      List.range'_concat, List.foldl_append, List.foldl_cons, List.foldl_nil, Nat.one_mul]

theorem scan_zero_run (cfg : ChoiConfig) (data : List Int) (s : ChoiState)
    (hr : s.reset = false) (hs : s.stopped = false) (hst : s.start = true)
    (hw : s.window_2_invalid = false) (hc : s.cnt_non_zero = 0) :
    ∀ c m, (∀ k, m ≤ k → k < m + c → dataVal data k = 0) → m + c ≤ data.length →
      (List.range' m c).foldl (fun t i => choiStep cfg data i t) s = s := by
  intro c
  induction c with
  | zero => intro m _ _; rfl
  | succ k ih =>
    intro m hz hlen
    rw [List.range'_succ, List.foldl_cons]
    have hstep : choiStep cfg data m s = s := by
      rw [choiStep_zero_in hr hs hst hw (hz m (by omega) (by omega)) (by omega)]
      obtain ⟨re, st, sa, wi, sn, en, cn, ra⟩ := s
      simp_all
    rw [hstep]
    exact ih (m + 1) (fun j hj1 hj2 => hz j (by omega) (by omega)) (by omega)

theorem dataWin94_length : dataWin94.length = 94 := by
  simp [dataWin94]

theorem dataWin94_zero {k : Nat} (hk : k < 90) : dataVal dataWin94 k = 0 := by
  unfold dataVal dataWin94
  rw [List.getD_eq_getElem?_getD, List.getElem?_append_left (by simpa using hk),
    List.getElem?_replicate, if_pos hk]
  rfl

theorem w94_s1 :
    choiScanUpto cfgDefault dataWin94 1 = ⟨false, false, true, false, 0, 0, 0, []⟩ := by
  rw [show (1 : Nat) = 0 + 1 from rfl, choiScanUpto_succ,
    show choiScanUpto cfgDefault dataWin94 0 = choiInit from rfl,
    choiStep_open rfl rfl rfl rfl (dataWin94_zero (by omega))
      (by simp [dataWin94_length])]
  rfl

theorem w94_s90 :
    choiScanUpto cfgDefault dataWin94 90 = ⟨false, false, true, false, 0, 0, 0, []⟩ := by
  rw [show (90 : Nat) = 1 + 89 from rfl, choiScanUpto_chunk cfgDefault dataWin94 89 1,
    w94_s1,
    scan_zero_run cfgDefault dataWin94 _ rfl rfl rfl rfl rfl 89 1
      (fun k hk1 hk2 => dataWin94_zero (by omega)) (by simp [dataWin94_length])]

theorem w94_s91 :
    choiScanUpto cfgDefault dataWin94 91 =
      ⟨true, true, true, true, 0, 90, 1, [(0, 90)]⟩ := by
  rw [show (91 : Nat) = 90 + 1 from rfl, choiScanUpto_succ, w94_s90]
  decide

theorem w94_s92 :
    choiScanUpto cfgDefault dataWin94 92 =
      ⟨false, false, true, false, 91, 0, 0, [(0, 90)]⟩ := by
  rw [show (92 : Nat) = 91 + 1 from rfl, choiScanUpto_succ, w94_s91]
  decide

theorem w94_s93 :
    choiScanUpto cfgDefault dataWin94 93 =
      ⟨false, false, true, false, 91, 0, 0, [(0, 90)]⟩ := by
  rw [show (93 : Nat) = 92 + 1 from rfl, choiScanUpto_succ, w94_s92]
  decide

theorem w94_s94 :
    choiScanUpto cfgDefault dataWin94 94 =
      ⟨true, false, true, true, 91, 93, 1, [(0, 90)]⟩ := by
  rw [show (94 : Nat) = 93 + 1 from rfl, choiScanUpto_succ, w94_s93]
  decide

theorem choiRanges_dataWin94 : choiRanges cfgDefault dataWin94 = [(0, 90)] := by
  unfold choiRanges choiScan
  rw [dataWin94_length, w94_s94]

theorem dataSpike201_length : dataSpike201.length = 201 := by
  simp [dataSpike201]

theorem dataSpike201_zero_lo {k : Nat} (hk : k < 100) : dataVal dataSpike201 k = 0 := by
  unfold dataVal dataSpike201
  rw [List.getD_eq_getElem?_getD, List.getElem?_append_left (by simpa using hk),
    List.getElem?_replicate, if_pos hk]
  rfl

theorem dataSpike201_zero_hi {k : Nat} (h1 : 100 < k) (h2 : k < 201) :
    dataVal dataSpike201 k = 0 := by
  unfold dataVal dataSpike201
  rw [List.getD_eq_getElem?_getD,
    List.getElem?_append_right (by simp; omega),
    List.getElem?_append_right (by simp; omega)]
  simp only [List.length_replicate, List.length_cons, List.length_nil]
  rw [List.getElem?_replicate]
  rw [if_pos (by omega)]
  rfl

theorem sp201_s1 :
    choiScanUpto cfgDefault dataSpike201 1 = ⟨false, false, true, false, 0, 0, 0, []⟩ := by
  rw [show (1 : Nat) = 0 + 1 from rfl, choiScanUpto_succ,
    show choiScanUpto cfgDefault dataSpike201 0 = choiInit from rfl,
    choiStep_open rfl rfl rfl rfl (dataSpike201_zero_lo (by omega))
      (by simp [dataSpike201_length])]
  rfl

theorem sp201_s100 :
    choiScanUpto cfgDefault dataSpike201 100 =
      ⟨false, false, true, false, 0, 0, 0, []⟩ := by
  rw [show (100 : Nat) = 1 + 99 from rfl, choiScanUpto_chunk cfgDefault dataSpike201 99 1,
    sp201_s1,
    scan_zero_run cfgDefault dataSpike201 _ rfl rfl rfl rfl rfl 99 1
      (fun k hk1 hk2 => dataSpike201_zero_lo (by omega)) (by simp [dataSpike201_length])]

theorem sp201_s101 :
    choiScanUpto cfgDefault dataSpike201 101 =
      ⟨false, false, true, false, 0, 0, 1, []⟩ := by
  rw [show (101 : Nat) = 100 + 1 from rfl, choiScanUpto_succ, sp201_s100]
  decide

theorem sp201_s102 :
    choiScanUpto cfgDefault dataSpike201 102 =
      ⟨false, false, true, false, 0, 0, 0, []⟩ := by
  rw [show (102 : Nat) = 101 + 1 from rfl, choiScanUpto_succ, sp201_s101,
    choiStep_zero_in rfl rfl rfl rfl (dataSpike201_zero_hi (by omega) (by omega))
      (by simp [dataSpike201_length])]

theorem sp201_s201 :
    choiScanUpto cfgDefault dataSpike201 201 =
      ⟨false, false, true, false, 0, 0, 0, []⟩ := by
  rw [show (201 : Nat) = 102 + 99 from rfl,
    choiScanUpto_chunk cfgDefault dataSpike201 99 102, sp201_s102,
    scan_zero_run cfgDefault dataSpike201 _ rfl rfl rfl rfl rfl 99 102
      (fun k hk1 hk2 => dataSpike201_zero_hi (by omega) (by omega))
      (by simp [dataSpike201_length])]

theorem choiRanges_dataSpike201 : choiRanges cfgDefault dataSpike201 = [] := by
  unfold choiRanges choiScan
  rw [dataSpike201_length, sp201_s201]

/-! ## Claims -/

/-- C1: the end-of-sequence trigger of the close condition compares the loop
index with `len(data - 1)`, i.e. with the length of the elementwise shifted
sequence, which equals the untouched sequence length; hence for every valid
loop index the trigger is false and the close condition reduces to the
3-consecutive-spikes trigger or window invalidation. -/
theorem c1_end_trigger_never_fires (data : List Int) (cnt : Nat) (invalid : Bool)
    (i : Nat) (hi : i < data.length) :
    lenDataMinusOne data = data.length ∧
      (closeTrigger data cnt invalid i = true ↔ cnt = 3 ∨ invalid = true) := by
  refine ⟨lenDataMinusOne_eq data, ?_⟩
  unfold closeTrigger
  rw [lenDataMinusOne_eq]
  have hne : i ≠ data.length := by omega
  simp [hne]

/-- Witness for C1 at `data = [0]`, `i = 0`. -/
theorem c1_witness :
    lenDataMinusOne [(0 : Int)] = [(0 : Int)].length ∧
      (closeTrigger [(0 : Int)] 0 false 0 = true ↔ 0 = 3 ∨ false = true) :=
  c1_end_trigger_never_fires [(0 : Int)] 0 false 0 (by decide)

/-- C2 counterexample: on `dataWin94` (90 zeros, a spike at 90, zeros, a spike
at 93) with the default configuration, the window check at epoch 90 fails
while a candidate opened at 0 is live, yet the close at epoch 90 RECORDS the
interval `(0, 90)` because the candidate is long enough — the claim that a
window-invalidated candidate is always discarded without recording is false. -/
theorem c2_counterexample :
    (choiScanUpto cfgDefault dataWin94 90).start = true ∧
    (choiScanUpto cfgDefault dataWin94 90).reset = false ∧
    (choiScanUpto cfgDefault dataWin94 90).ranges = [] ∧
    windowCheckFails cfgDefault dataWin94 90 = true ∧
    (choiScanUpto cfgDefault dataWin94 91).ranges = [(0, 90)] := by
  refine ⟨by rw [w94_s90], by rw [w94_s90], by rw [w94_s90], by decide, by rw [w94_s91]⟩

/-- C2 amended: when the window check fails at a spike epoch `i` of a live
candidate, the candidate is closed at `i`; it is discarded without recording
exactly when the slice from its start to `i` is shorter than
`min_period_len`, and otherwise the interval `(start, i)` IS recorded. -/
theorem c2_window_invalid_close (cfg : ChoiConfig) (data : List Int) (i : Nat)
    (s : ChoiState) (hr : s.reset = false) (hs : s.stopped = false)
    (hst : s.start = true) (hw : s.window_2_invalid = false)
    (hp : 0 < dataVal data i) (hf : windowCheckFails cfg data i = true) :
    ((pySlice data s.strt_nw i).length < cfg.min_period_len →
      (choiStep cfg data i s).ranges = s.ranges ∧ (choiStep cfg data i s).reset = true) ∧
    (cfg.min_period_len ≤ (pySlice data s.strt_nw i).length →
      (choiStep cfg data i s).ranges = s.ranges ++ [(s.strt_nw, i)] ∧
      (choiStep cfg data i s).stopped = true) := by
  constructor
  · intro hshort
    rw [choiStep_spike_close_short hr hs hst hw hp (Or.inr hf) hshort]
    exact ⟨rfl, rfl⟩
  · intro hlong
    rw [choiStep_spike_close_long hr hs hst hw hp (Or.inr hf) (by omega)]
    exact ⟨rfl, rfl⟩

/-- Witness for C2 at epoch 90 of `dataWin94` on a live candidate opened at 0. -/
theorem c2_witness :
    ((pySlice dataWin94 0 90).length < cfgDefault.min_period_len →
      (choiStep cfgDefault dataWin94 90 ⟨false, false, true, false, 0, 0, 0, []⟩).ranges = [] ∧
      (choiStep cfgDefault dataWin94 90 ⟨false, false, true, false, 0, 0, 0, []⟩).reset = true) ∧
    (cfgDefault.min_period_len ≤ (pySlice dataWin94 0 90).length →
      (choiStep cfgDefault dataWin94 90 ⟨false, false, true, false, 0, 0, 0, []⟩).ranges =
        [(0, 90)] ∧
      (choiStep cfgDefault dataWin94 90 ⟨false, false, true, false, 0, 0, 0, []⟩).stopped =
        true) :=
  c2_window_invalid_close cfgDefault dataWin94 90 ⟨false, false, true, false, 0, 0, 0, []⟩
    rfl rfl rfl rfl (by decide) (by decide)

/-- C3: on 100 zeros + one count of 50 + 100 zeros with the default
configuration (spike_tolerance 2, min_window_len 30, min_period_len 90),
the code records NO interval and returns the all-ones mask — because the
end-of-sequence close trigger never fires (C1), the claimed single spanning
non-wear interval is not produced. -/
theorem c3_spike201_no_interval :
    choiRanges cfgDefault dataSpike201 = [] ∧
    choiMask cfgDefault dataSpike201 = List.replicate 201 1 := by
  refine ⟨choiRanges_dataSpike201, ?_⟩
  unfold choiMask
  rw [choiRanges_dataSpike201, List.foldl_nil, dataSpike201_length]

/-- C4: the scan ignores `activity_threshold`.  With threshold 1, the epoch
with count `1 = activity_threshold` in `[0, 1]` increments the spike counter
(claim says it is treated as zero and clears it), and the input `[1]` never
opens a candidate (claim says a count equal to the threshold can open one). -/
theorem c4_threshold_ignored :
    (choiScan cfgThresh1 [0, 1]).cnt_non_zero = 1 ∧
    (choiScan cfgThresh1 [0, 1]).start = true ∧
    (choiScan cfgThresh1 [1]).start = false := by
  exact ⟨rfl, rfl, rfl⟩

/-- C5: every recorded interval satisfies `end > start` and
`end - start ≥ min_period_len`, and the recorded intervals are pairwise
disjoint with strictly increasing start indices, in scan order. -/
theorem c5_ranges_invariant (cfg : ChoiConfig) (data : List Int) :
    (∀ r ∈ choiRanges cfg data, r.1 < r.2 ∧ cfg.min_period_len ≤ r.2 - r.1) ∧
    (choiRanges cfg data).Pairwise (fun r1 r2 => r1.2 ≤ r2.1 ∧ r1.1 < r2.1) := by
  have hb := choiRanges_bounded cfg data
  refine ⟨fun r hr => ⟨(hb r hr).1, (hb r hr).2.1⟩, ?_⟩
  refine (choiRanges_pairwise cfg data).imp_of_mem ?_
  intro a b ha _ hab
  exact ⟨hab, lt_of_lt_of_le (hb a ha).1 hab⟩

/-- Witness for C5 on `dataWin94`, whose recorded interval list is `[(0, 90)]`. -/
theorem c5_witness : (0 : Nat) < 90 ∧ cfgDefault.min_period_len ≤ 90 - 0 :=
  (c5_ranges_invariant cfgDefault dataWin94).1 (0, 90)
    (by rw [choiRanges_dataWin94]; simp)

/-- C6 counterexample: with `activity_threshold = 1` on `[0, 5, 0, 1]`, epoch 1
is a spike inside a live candidate; the window check fails (the upstream
window holds the count 1 > 0) although no examined count exceeds the
configured threshold 1 — the "iff some examined epoch exceeds the threshold"
half of the claim is false for nonzero thresholds. -/
theorem c6_counterexample :
    (choiScanUpto cfgThresh1 [0, 5, 0, 1] 1).start = true ∧
    cfgThresh1.activity_threshold < dataVal [0, 5, 0, 1] 1 ∧
    windowCheckFails cfgThresh1 [0, 5, 0, 1] 1 = true ∧
    (upstreamWindow cfgThresh1 [0, 5, 0, 1] 1 ++
      downstreamWindow cfgThresh1 [0, 5, 0, 1] 1).all
        (fun c => decide (c ≤ cfgThresh1.activity_threshold)) = true := by
  exact ⟨rfl, by decide, by decide, by decide⟩

/-- C6 amended: at every epoch `i ≥ 1` (every spike inside an open candidate
has `i ≥ 1`, since candidates open at a zero epoch strictly earlier), the
upstream window is exactly the data at indices `[i + spike_tolerance,
i + min_window_len]` (clipped), the downstream window is exactly the data at
indices `[max (0, i - min_window_len), i - 1)` (clipped, skipping epoch
`i - 1`), and the check fails iff some examined count is strictly positive
(the literal 0 comparison of the code, not `activity_threshold`). -/
theorem c6_window_ranges (cfg : ChoiConfig) (data : List Int) (i : Nat) (hi : 1 ≤ i) :
    upstreamWindow cfg data i =
      expectedWindow data (i + cfg.spike_tolerance) (i + cfg.min_window_len + 1) ∧
    downstreamWindow cfg data i =
      expectedWindow data (i - cfg.min_window_len) (i - 1) ∧
    (windowCheckFails cfg data i = true ↔
      (∃ x ∈ upstreamWindow cfg data i, 0 < x) ∨
      (∃ x ∈ downstreamWindow cfg data i, 0 < x)) := by
  refine ⟨?_, ?_, windowCheckFails_iff cfg data i⟩
  · unfold upstreamWindow
    exact pySlice_eq_expectedWindow data _ _
  · rw [downstreamWindow_eq cfg data hi]
    exact pySlice_eq_expectedWindow data _ _

/-- Witness for C6 at `data = [0, 5]`, `i = 1`, default configuration. -/
theorem c6_witness :
    upstreamWindow cfgDefault [(0 : Int), 5] 1 =
      expectedWindow [(0 : Int), 5] (1 + cfgDefault.spike_tolerance)
        (1 + cfgDefault.min_window_len + 1) ∧
    downstreamWindow cfgDefault [(0 : Int), 5] 1 =
      expectedWindow [(0 : Int), 5] (1 - cfgDefault.min_window_len) (1 - 1) ∧
    (windowCheckFails cfgDefault [(0 : Int), 5] 1 = true ↔
      (∃ x ∈ upstreamWindow cfgDefault [(0 : Int), 5] 1, 0 < x) ∨
      (∃ x ∈ downstreamWindow cfgDefault [(0 : Int), 5] 1, 0 < x)) :=
  c6_window_ranges cfgDefault [(0 : Int), 5] 1 (by decide)

/-- C7: an input shorter than `min_period_len` still runs the scan and
returns a complete mask, which is necessarily all-worn (all ones, no
recorded interval), for every timestamps argument and print flag. -/
theorem c7_short_input_all_worn (cfg : ChoiConfig) (data time : List Int) (p : Bool)
    (h : data.length < cfg.min_period_len) :
    choiRanges cfg data = [] ∧
    choi_2011_calculate_non_wear_time cfg data time p =
      .ok (List.replicate data.length 1) := by
  have hnil : choiRanges cfg data = [] := by
    apply List.eq_nil_iff_forall_not_mem.mpr
    intro r hr
    have hb := choiRanges_bounded cfg data r hr
    omega
  refine ⟨hnil, ?_⟩
  unfold choi_2011_calculate_non_wear_time
  rw [hnil]
  rfl

/-- Witness for C7 at the one-epoch input `[0]` with the default configuration. -/
theorem c7_witness :
    choiRanges cfgDefault [(0 : Int)] = [] ∧
    choi_2011_calculate_non_wear_time cfgDefault [(0 : Int)] [] false =
      .ok (List.replicate 1 1) :=
  c7_short_input_all_worn cfgDefault [0] [] false (by decide)

/-- C8 counterexample: the malformed input with a negative count (and a
timestamps list of mismatched length) is NOT rejected at the boundary —
the function happily scans it and returns a mask. -/
theorem c8_counterexample :
    choi_2011_calculate_non_wear_time cfgDefault [-1] [] false = .ok [1] ∧
    (-1 : Int) < 0 ∧ ([] : List Int).length ≠ [(-1 : Int)].length := by
  exact ⟨rfl, by decide, by decide⟩

/-- C8 amended: the function performs no boundary validation at all: for
every integer counts input (malformed or not — negative counts, mismatched
timestamp lengths) with `print_output = false` it returns a complete mask of
the input's length. -/
theorem c8_no_boundary_validation (cfg : ChoiConfig) (data time : List Int) :
    choi_2011_calculate_non_wear_time cfg data time false = .ok (choiMask cfg data) ∧
    (choiMask cfg data).length = data.length := by
  refine ⟨?_, choiMask_length cfg data⟩
  unfold choi_2011_calculate_non_wear_time choiMask
  exact foldl_logStep_false time _ _

/-- C9: the window reads are bounds-checked: every value examined by the
upstream or downstream window is an element of the data (no out-of-bounds
read; the embedding is total), a fully out-of-range upstream request yields
the empty window, and at `i = 1` the downstream window is empty. -/
theorem c9_windows_bounds_checked (cfg : ChoiConfig) (data : List Int) (i : Nat) :
    (∀ x ∈ upstreamWindow cfg data i, x ∈ data) ∧
    (∀ x ∈ downstreamWindow cfg data i, x ∈ data) ∧
    (data.length ≤ i + cfg.spike_tolerance → upstreamWindow cfg data i = []) ∧
    (i = 1 → downstreamWindow cfg data i = []) := by
  refine ⟨fun x hx => pySlice_mem hx, fun x hx => pySlice_mem hx, ?_, ?_⟩
  · intro h
    unfold upstreamWindow
    rw [pySlice_natCast, List.drop_eq_nil_of_le h, List.take_nil]
  · intro h
    subst h
    rw [downstreamWindow_eq cfg data (by omega), pySlice_natCast]
    simp

/-- Witness for C9 at `data = [5]`, `i = 3`, default configuration. -/
theorem c9_witness : upstreamWindow cfgDefault [(5 : Int)] 3 = [] :=
  (c9_windows_bounds_checked cfgDefault [(5 : Int)] 3).2.2.1 (by decide)

/-- C10 counterexample: same counts, same configuration, but with
`print_output = true` and an empty timestamps list the call raises an
IndexError in the diagnostic logging instead of returning the mask that the
`print_output = false` call returns — so the result is NOT independent of
`timestamps`/`print_output`. -/
theorem c10_counterexample :
    choi_2011_calculate_non_wear_time cfgDefault dataWin94 [] true =
      .error "IndexError" ∧
    choi_2011_calculate_non_wear_time cfgDefault dataWin94 [] false =
      .ok (List.replicate 90 0 ++ [1, 1, 1, 1]) := by
  constructor
  · unfold choi_2011_calculate_non_wear_time
    rw [choiRanges_dataWin94]
    rfl
  · unfold choi_2011_calculate_non_wear_time
    rw [choiRanges_dataWin94, dataWin94_length]
    rfl

/-- C10 amended: timestamps and `print_output` never influence the computed
intervals or mask values; any two invocations on the same counts and
configuration return the same mask provided each one either has
`print_output = false` or timestamps at least as long as the counts (so that
the diagnostic lookups cannot raise). -/
theorem c10_mask_independent_of_time (cfg : ChoiConfig) (data t1 t2 : List Int)
    (p1 p2 : Bool) (h1 : p1 = false ∨ data.length ≤ t1.length)
    (h2 : p2 = false ∨ data.length ≤ t2.length) :
    choi_2011_calculate_non_wear_time cfg data t1 p1 =
      choi_2011_calculate_non_wear_time cfg data t2 p2 := by
  rw [choiResult_ok cfg data t1 p1 h1, choiResult_ok cfg data t2 p2 h2]

/-- Witness for C10: different timestamps contents and print flags, same mask. -/
theorem c10_witness :
    choi_2011_calculate_non_wear_time cfgDefault dataWin94 (List.replicate 94 7) true =
      choi_2011_calculate_non_wear_time cfgDefault dataWin94 [] false :=
  c10_mask_independent_of_time cfgDefault dataWin94 (List.replicate 94 7) [] true false
    (Or.inr (by decide)) (Or.inl rfl)

